import Mathlib

/-!
Shallow embedding of the core of `protocolo_extractor.py` (lab-protocol-assistant):
the methods-section extractor (`PubMedClient._extract_methods`), the file cache
(`CacheManager`), the article search shell (`PubMedClient.search_articles`) and the
protocol synthesis entry point (`LLMProcessor.generate_protocol`), together with
theorems settling the specification claims about them.

Modelling conventions:
* Python strings are `String`; `None`-able strings are `Option String`.
* An `xml.etree.ElementTree.Element` is `Xml`: tag, own immediate text (`.text`),
  children in document order, trailing text (`.tail`).
* Decoded JSON values are `Json`; a cache file on disk is `Option Json`
  (`none` = bytes that `json.load` rejects).
* Wall-clock time is `Nat` seconds; `timedelta.days` is the floor division by 86400.
  `datetime.isoformat` / `datetime.fromisoformat` are external library primitives and are
  passed in as an encode/decode pair, as is the `hashlib.md5` hex digest.
* Python exceptions are `Except` errors; a function that cannot raise returns plainly.
-/

set_option autoImplicit false

/-! ## Python string helpers -/

/-- The whitespace characters stripped by `str.strip()` and matched by the regex class
`\s` (ASCII range; the strings this development evaluates are ASCII apart from `°`). -/
def pyWhitespace (c : Char) : Bool :=
  c = ' ' || c = '\t' || c = '\n' || c = '\x0d' || c = '\x0b' || c = '\x0c'

/-- `str.strip()` on the underlying character list. -/
def pyStripList (l : List Char) : List Char :=
  ((l.dropWhile pyWhitespace).reverse.dropWhile pyWhitespace).reverse

/-- `str.strip()`. -/
def pyStrip (s : String) : String := ⟨pyStripList s.toList⟩

/-- `str.lower()` (per-character, which agrees with Python on the ASCII titles used). -/
def pyLower (s : String) : String := ⟨s.toList.map Char.toLower⟩

/-- Substring containment on character lists: some rotation of `hay` starts with
`needle`.  This is Python's `needle in hay` for strings. -/
def listHasInfix (needle : List Char) : List Char → Bool
  | [] => needle.isEmpty
  | c :: rest => needle.isPrefixOf (c :: rest) || listHasInfix needle rest

/-- Python `needle in hay` substring test. -/
def pyContains (hay needle : String) : Bool := listHasInfix needle.toList hay.toList

/-- Python slicing `s[:n]` (by code points, as `String.toList` is). -/
def pyTake (s : String) (n : Nat) : String := ⟨s.toList.take n⟩

/-! ## XML document model -/

/-- Shallow model of `xml.etree.ElementTree.Element`: tag, the element's own immediate
text (`.text`), child elements in document order, and trailing text (`.tail`). -/
inductive Xml where
  | elem (tag : String) (text : Option String) (children : List Xml) (tail : Option String)

def Xml.tag : Xml → String
  | .elem t _ _ _ => t

def Xml.text : Xml → Option String
  | .elem _ tx _ _ => tx

def Xml.children : Xml → List Xml
  | .elem _ _ cs _ => cs

def Xml.tail : Xml → Option String
  | .elem _ _ _ tl => tl

/-- Python truthiness of an optional string (`if s:`): present and non-empty; the truthy
value is returned as a singleton so chunk lists concatenate like the Python appends. -/
def optChunk : Option String → List String
  | some s => if s = "" then [] else [s]
  | none => []

mutual

/-- `Element.iter()`: the element itself followed by all descendants, in document order. -/
def Xml.iterAll : Xml → List Xml
  | .elem t tx cs tl => .elem t tx cs tl :: iterAllList cs

def iterAllList : List Xml → List Xml
  | [] => []
  | x :: xs => x.iterAll ++ iterAllList xs

end

mutual

/-- `Element.itertext()`: the element's own text when truthy, then for each child its
`itertext()` followed by that child's tail when truthy.  The element's own tail is not
included. -/
def Xml.iterTextChunks : Xml → List String
  | .elem _ tx cs _ => optChunk tx ++ iterTextChunksList cs

def iterTextChunksList : List Xml → List String
  | [] => []
  | x :: xs => x.iterTextChunks ++ optChunk x.tail ++ iterTextChunksList xs

end

/-- `element.find(tag)` with a plain tag path: the first direct child with that tag. -/
def Xml.findChild (x : Xml) (t : String) : Option Xml :=
  x.children.find? (fun c => c.tag == t)

/-- `element.find(".//" ++ tag)`: the first descendant (any depth, document order,
excluding the element itself) with that tag. -/
def Xml.findDescendant (x : Xml) (t : String) : Option Xml :=
  (iterAllList x.children).find? (fun c => c.tag == t)

/-! ## `PubMedClient._extract_methods` -/

/-- The fixed synonym list `methods_titles` of `_extract_methods`. -/
def methods_titles : List String :=
  ["methods", "materials and methods", "experimental procedures",
   "methodology", "experimental methods", "materials & methods",
   "experimental section", "experimental"]

/-- The stage-1 test on one `sec` element: the first direct `title` child must exist,
and its own immediate text (`title.text`, lowercased; the empty string when `title.text`
is falsy) must contain one of the synonym phrases.  Nested children of the title are
never consulted, because the source reads `title.text` only. -/
def secTitleMatches (sec : Xml) : Bool :=
  match sec.findChild "title" with
  | none => false
  | some title =>
      let title_text := match title.text with
        | some s => if s = "" then "" else pyLower s
        | none => ""
      methods_titles.any (fun m => pyContains title_text m)

/-- Stage-1 text collection: every element of `sec.iter()` (the section and all its
descendants, document order) contributes its stripped text and stripped tail when
truthy; the chunks are joined with single spaces. -/
def sectionText (sec : Xml) : String :=
  " ".intercalate
    ((sec.iterAll.map (fun e => (optChunk e.text).map pyStrip ++ (optChunk e.tail).map pyStrip)).flatten)

/-- Stage 1 of `_extract_methods`: scan `root.iter("sec")` in document order and return
the collected text of the first section whose title matches. -/
def stage1_titled_section (root : Xml) : Option String :=
  ((root.iterAll.filter (fun e => e.tag == "sec")).find? secTitleMatches).map sectionText

/-- A character of the regex class `[:\s]`. -/
def sepChar (c : Char) : Bool := c = ':' || pyWhitespace c

/-- Case-insensitive prefix test (`re.IGNORECASE` on the ASCII patterns involved). -/
def ciIsPrefixOf : List Char → List Char → Bool
  | [], _ => true
  | _ :: _, [] => false
  | p :: ps, c :: cs => (p.toLower == c.toLower) && ciIsPrefixOf ps cs

/-- The terminator alternation `(?:Results|Discussion|Conclusion)` of the fallback
regex. -/
def fallbackTerminators : List String := ["Results", "Discussion", "Conclusion"]

/-- Whether one of the terminators matches at the head of `l` (case-insensitively). -/
def termAt (l : List Char) : Bool :=
  fallbackTerminators.any (fun t => ciIsPrefixOf t.toList l)

/-- The lazy capture `(.*?)` before the terminator alternation: with `re.DOTALL` it
matches any characters, and laziness stops it at the first position where a terminator
matches.  `none` when no terminator occurs in `l`. -/
def captureUntilTerm : List Char → Option (List Char)
  | [] => none
  | c :: rest =>
      if termAt (c :: rest) then some []
      else (captureUntilTerm rest).map (c :: ·)

/-- One anchored attempt of `re.search(pattern + "[:\s]+(.*?)(?:Results|Discussion|Conclusion)")`
at the head of `l`.  The greedy separator consumes the maximal run of `[:\s]`; giving
characters back cannot create a match the maximal run misses, because no terminator
begins with a `[:\s]` character while the `DOTALL` capture accepts them, so the attempt
succeeds exactly when a terminator occurs at or after the end of the maximal run. -/
def fallbackMatchAt (pat : List Char) (l : List Char) : Option (List Char) :=
  if ciIsPrefixOf pat l then
    let rest := l.drop pat.length
    let sep := rest.takeWhile sepChar
    if sep.isEmpty then none
    else captureUntilTerm (rest.drop sep.length)
  else none

/-- `re.search` for the fallback regex: the leftmost start position at which the whole
pattern matches wins, and its capture group is returned. -/
def reSearchFallback (pat : List Char) : List Char → Option (List Char)
  | [] => fallbackMatchAt pat []
  | c :: rest =>
      match fallbackMatchAt pat (c :: rest) with
      | some cap => some cap
      | none => reSearchFallback pat rest

/-- The body patterns of stage 2, tried in priority order. -/
def body_patterns : List String := ["Materials and Methods", "Methods", "Experimental"]

/-- Stage 2 of `_extract_methods`: find the first `body` descendant, join its
`itertext()` chunks with single spaces, and return the stripped capture of the first
pattern that matches anywhere in that text. -/
def body_pattern_fallback (root : Xml) : Option String :=
  match root.findDescendant "body" with
  | none => none
  | some body =>
      let body_text := " ".intercalate body.iterTextChunks
      body_patterns.findSome? (fun pat =>
        (reSearchFallback pat.toList body_text.toList).map (fun cap => pyStrip ⟨cap⟩))

/-- `PubMedClient._extract_methods`: stage 1 (titled-section scan), then stage 2
(body-pattern fallback), else `None`.  Total: "not found" is the value `none`, never an
error. -/
def extract_methods (root : Xml) : Option String :=
  match stage1_titled_section root with
  | some methods_text => some methods_text
  | none => body_pattern_fallback root

/-! ## JSON values and the file cache (`CacheManager`) -/

/-- Shallow model of a decoded JSON value (`json.load` / `json.dump` round payloads). -/
inductive Json where
  | null
  | bool (b : Bool)
  | num (n : Int)
  | str (s : String)
  | arr (xs : List Json)
  | obj (fields : List (String × Json))

/-- Python dictionary lookup on a decoded JSON object. -/
def jsonLookup (fields : List (String × Json)) (k : String) : Option Json :=
  (fields.find? (fun p => p.1 == k)).map (fun p => p.2)

/-- Python truthiness of a JSON value (`if cached:`). -/
def Json.truthy : Json → Bool
  | .null => false
  | .bool b => b
  | .num n => !(n == 0)
  | .str s => !(s == "")
  | .arr xs => !xs.isEmpty
  | .obj fs => !fs.isEmpty

/-- The cache directory contents: one optional file per name; a present file holds
either a decoded JSON value or bytes that `json.load` rejects (`none`). -/
def CacheStore : Type := String → Option (Option Json)

/-- The Python exception that escapes `CacheManager.get` on a bad entry; the source has
no handler around the file read, so these propagate to the caller. -/
inductive CacheReadErr where
  | jsonDecodeError   -- json.load failed on the file bytes
  | keyError          -- data['timestamp'] or data['content'] missing from the dict
  | typeError         -- data is not a dict, or the timestamp value is not a string
  | valueError        -- datetime.fromisoformat rejected the timestamp string
deriving DecidableEq

def CACHE_EXPIRY_DAYS : Nat := 7

/-- Seconds per day; `timedelta.days` is the floor `(now - cached) / 86400`. -/
def secondsPerDay : Nat := 86400

/-- `CacheManager.get_cache_key`: `hashlib.md5(text.encode()).hexdigest()`.  The digest
is an external primitive passed in as `digest`; every property proved below holds for an
arbitrary digest function. -/
def get_cache_key (digest : String → String) (text : String) : String := digest text

/-- `CacheManager.get`, with `dec` the external `datetime.fromisoformat` partial parse.
Returns `.ok none` for a missing file or an expired well-formed entry, `.ok (some c)`
for a fresh entry's `content` field, and an error for anything the unguarded Python body
would raise on. -/
def CacheManager.get (dec : String → Option Nat) (store : CacheStore) (now : Nat)
    (key : String) : Except CacheReadErr (Option Json) :=
  match store (key ++ ".json") with
  | none => .ok none
  | some none => .error .jsonDecodeError
  | some (some data) =>
      match data with
      | .obj fields =>
          match jsonLookup fields "timestamp" with
          | none => .error .keyError
          | some (.str ts) =>
              match dec ts with
              | none => .error .valueError
              | some cached_time =>
                  if (now - cached_time) / secondsPerDay < CACHE_EXPIRY_DAYS then
                    match jsonLookup fields "content" with
                    | none => .error .keyError
                    | some content => .ok (some content)
                  else
                    .ok none
          | some _ => .error .typeError
      | _ => .error .typeError

/-- `CacheManager.set`, with `enc` the external `datetime.isoformat` of the current
time: writes `{"timestamp": ..., "content": ...}` to the key's file, overwriting. -/
def CacheManager.set (enc : Nat → String) (store : CacheStore) (now : Nat)
    (key : String) (content : Json) : CacheStore :=
  fun f =>
    if f = key ++ ".json" then
      some (some (.obj [("timestamp", .str (enc now)), ("content", content)]))
    else store f

/-! ## `PubMedClient.search_articles` -/

/-- A Python exception raised while treating the decoded response like a dict. -/
inductive PyErr where
  | keyError
  | typeError
deriving DecidableEq

/-- Python `k in j` for a decoded JSON value `j`: key membership for a dict, element
membership for a list (a string element equal to `k`), substring test for a string, and
a `TypeError` otherwise. -/
def pyIn (k : String) : Json → Except PyErr Bool
  | .obj fs => .ok (fs.any (fun p => p.1 == k))
  | .arr xs => .ok (xs.any (fun j => match j with | .str s => s == k | _ => false))
  | .str s => .ok (pyContains s k)
  | _ => .error .typeError

/-- Python `j[k]` for a decoded JSON value `j` and string key `k`. -/
def pyIndex (j : Json) (k : String) : Except PyErr Json :=
  match j with
  | .obj fs =>
      match jsonLookup fs k with
      | some v => .ok v
      | none => .error .keyError
  | _ => .error .typeError

/-- Outcome of `session.get` + `raise_for_status()` + `response.json()` for the search
call: either a `requests.RequestException` (transport failure, HTTP error status, or a
body that is not JSON — all re-raised by the `except` clause) or a decoded JSON body. -/
inductive SearchOutcome where
  | transportError
  | ok (body : Json)

/-- How a `search_articles` call can fail. -/
inductive SearchErr where
  | searchError                 -- the re-raised requests.RequestException
  | typeError                   -- uncaught TypeError from `in`/indexing on a non-dict
  | cacheError (e : CacheReadErr)  -- uncaught exception from the cache read
deriving DecidableEq

/-- Result of a `search_articles` call: the returned value (the identifier list as
decoded JSON) or the escaping exception, plus the cache store afterwards. -/
structure SearchResult where
  result : Except SearchErr Json
  store : CacheStore

/-- `PubMedClient.search_articles`: check the cache under the digest of
`"search_{query}_{max_results}"` (a falsy cached value, such as an empty list, is
treated as a miss); on miss consult the external search collaborator; re-raise
transport errors; if the decoded body has `esearchresult.idlist`, cache and return it;
otherwise return the empty list. -/
def search_articles (digest : String → String) (enc : Nat → String)
    (dec : String → Option Nat) (outcome : SearchOutcome) (store : CacheStore)
    (now : Nat) (query : String) (max_results : Nat) : SearchResult :=
  let cache_key := get_cache_key digest ("search_" ++ query ++ "_" ++ toString max_results)
  match CacheManager.get dec store now cache_key with
  | .error e => ⟨.error (.cacheError e), store⟩
  | .ok copt =>
      let cached := match copt with
        | some c => c
        | none => Json.null
      if cached.truthy then ⟨.ok cached, store⟩
      else
        match outcome with
        | .transportError => ⟨.error .searchError, store⟩
        | .ok data =>
            match pyIn "esearchresult" data with
            | .error _ => ⟨.error .typeError, store⟩
            | .ok false => ⟨.ok (.arr []), store⟩
            | .ok true =>
                match pyIndex data "esearchresult" with
                | .error _ => ⟨.error .typeError, store⟩
                | .ok inner =>
                    match pyIn "idlist" inner with
                    | .error _ => ⟨.error .typeError, store⟩
                    | .ok false => ⟨.ok (.arr []), store⟩
                    | .ok true =>
                        match pyIndex inner "idlist" with
                        | .error _ => ⟨.error .typeError, store⟩
                        | .ok ids =>
                            ⟨.ok ids, CacheManager.set enc store now cache_key ids⟩

/-! ## `LLMProcessor.generate_protocol` -/

/-- The `Article` dataclass. -/
structure Article where
  pmc_id : String
  pmid : Option String
  title : String
  authors : List String
  journal : String
  year : String
  doi : Option String
  abstract : Option String
  methods_text : Option String
  full_text_url : String

/-- JSON encoding of an optional string (`json.dump` of `None` or a `str`). -/
def optStr : Option String → Json
  | some s => .str s
  | none => .null

/-- `dataclasses.asdict` on an `Article` (as nested inside `asdict(protocol)`). -/
def encodeArticle (a : Article) : Json :=
  .obj [("pmc_id", .str a.pmc_id), ("pmid", optStr a.pmid), ("title", .str a.title),
        ("authors", .arr (a.authors.map .str)), ("journal", .str a.journal),
        ("year", .str a.year), ("doi", optStr a.doi), ("abstract", optStr a.abstract),
        ("methods_text", optStr a.methods_text), ("full_text_url", .str a.full_text_url)]

/-- The `Protocol` dataclass.  The generator fills the data fields with whatever JSON
values `protocol_data.get` produced (Python performs no validation), so they are typed
`Json`; `original_article` is held in its `asdict` form, which is also what a
cache-round-tripped `Protocol(**cached)` carries. -/
structure Protocol where
  title : Json
  original_article : Json
  reagents : Json
  materials : Json
  preparation : Json
  procedure : Json
  conditions : Json
  critical_notes : Json
  safety_warnings : Json
  generated_date : String
  llm_model : String

/-- `dataclasses.asdict` on a `Protocol`. -/
def Protocol.asdict (p : Protocol) : Json :=
  .obj [("title", p.title), ("original_article", p.original_article),
        ("reagents", p.reagents), ("materials", p.materials),
        ("preparation", p.preparation), ("procedure", p.procedure),
        ("conditions", p.conditions), ("critical_notes", p.critical_notes),
        ("safety_warnings", p.safety_warnings),
        ("generated_date", .str p.generated_date), ("llm_model", .str p.llm_model)]

/-- `Protocol(**cached)`: reconstruct a `Protocol` from a cached dict.  Partial: the
keys must all be present (Python raises `TypeError` otherwise); entries consulted by the
theorems below are always ones `Protocol.asdict` produced. -/
def Protocol.fromDict : Json → Option Protocol
  | .obj fields => do
      let title ← jsonLookup fields "title"
      let original_article ← jsonLookup fields "original_article"
      let reagents ← jsonLookup fields "reagents"
      let materials ← jsonLookup fields "materials"
      let preparation ← jsonLookup fields "preparation"
      let procedure ← jsonLookup fields "procedure"
      let conditions ← jsonLookup fields "conditions"
      let critical_notes ← jsonLookup fields "critical_notes"
      let safety_warnings ← jsonLookup fields "safety_warnings"
      match jsonLookup fields "generated_date", jsonLookup fields "llm_model" with
      | some (.str generated_date), some (.str llm_model) =>
          some ⟨title, original_article, reagents, materials, preparation, procedure,
                conditions, critical_notes, safety_warnings, generated_date, llm_model⟩
      | _, _ => none
  | _ => none

/-- How a `generate_protocol` call can end. -/
inductive GPErr where
  | emptyInput                 -- ValueError("No hay texto de métodos para procesar")
  | cacheError (e : CacheReadErr)  -- uncaught exception from the cache read
  | badCachedProtocol          -- TypeError from Protocol(**cached) on a foreign entry
  | synthesisError             -- collaborator call failed or its content was not JSON
  | attributeError             -- protocol_data.get on a decoded non-dict response
deriving DecidableEq

/-- The observable side effects of a `generate_protocol` call, in order. -/
inductive Effect where
  | cacheRead
  | llmCall
  | cacheWrite
deriving DecidableEq

/-- Result of a `generate_protocol` call: the returned `Protocol` or the escaping
exception, the cache store afterwards, and the side effects performed, in order. -/
structure GPResult where
  result : Except GPErr Protocol
  store : CacheStore
  effects : List Effect

/-- `LLMProcessor.generate_protocol`.  `digest`, `enc`, `dec` are the external digest
and timestamp codec; `llm` is the outcome of the chat-completion call combined with
`json.loads` of its content (the generative collaborator); `model` is `self.model`;
`now` the current time.  The empty-input guard `if not methods_text: raise ValueError`
runs before the cache key is even computed, so the failure carries no effects at all. -/
def generate_protocol (digest : String → String) (enc : Nat → String)
    (dec : String → Option Nat) (llm : Except Unit Json) (model : String)
    (store : CacheStore) (now : Nat) (methods_text : Option String)
    (article_info : Article) (style : String) : GPResult :=
  if methods_text.getD "" = "" then
    ⟨.error .emptyInput, store, []⟩
  else
    let text := match methods_text with
      | some s => s
      | none => ""
    let cache_key := get_cache_key digest ("protocol_" ++ pyTake text 100 ++ "_" ++ style)
    match CacheManager.get dec store now cache_key with
    | .error e => ⟨.error (.cacheError e), store, [.cacheRead]⟩
    | .ok copt =>
        let cached := match copt with
          | some c => c
          | none => Json.null
        if cached.truthy then
          match Protocol.fromDict cached with
          | some p => ⟨.ok p, store, [.cacheRead]⟩
          | none => ⟨.error .badCachedProtocol, store, [.cacheRead]⟩
        else
          match llm with
          | .error _ => ⟨.error .synthesisError, store, [.cacheRead, .llmCall]⟩
          | .ok (.obj pf) =>
              let protocol : Protocol :=
                { title := (jsonLookup pf "title").getD (.str "Protocolo sin título")
                  original_article := encodeArticle article_info
                  reagents := (jsonLookup pf "reagents").getD (.arr [])
                  materials := (jsonLookup pf "materials").getD (.arr [])
                  preparation := (jsonLookup pf "preparation").getD (.arr [])
                  procedure := (jsonLookup pf "procedure").getD (.arr [])
                  conditions := (jsonLookup pf "conditions").getD (.obj [])
                  critical_notes := (jsonLookup pf "critical_notes").getD (.arr [])
                  safety_warnings := (jsonLookup pf "safety_warnings").getD (.arr [])
                  generated_date := enc now
                  llm_model := model }
              ⟨.ok protocol, CacheManager.set enc store now cache_key protocol.asdict,
               [.cacheRead, .llmCall, .cacheWrite]⟩
          | .ok _ => ⟨.error .attributeError, store, [.cacheRead, .llmCall]⟩

/-! ## Helper lemmas -/

/-- Reading back a key just written: the entry is returned while its age in floored
days is below the expiry, for any isoformat codec that round-trips. -/
theorem get_after_set_fresh (enc : Nat → String) (dec : String → Option Nat)
    (hcodec : ∀ n, dec (enc n) = some n) (store : CacheStore) (tPut tGet : Nat)
    (key : String) (p : Json)
    (hfresh : (tGet - tPut) / secondsPerDay < CACHE_EXPIRY_DAYS) :
    CacheManager.get dec (CacheManager.set enc store tPut key p) tGet key =
      .ok (some p) := by
  have hbc : (("timestamp" : String) == "content") = false := by decide
  unfold CacheManager.get CacheManager.set
  simp [jsonLookup, hcodec, hbc, hfresh]

/-- Reading back a key just written, once its age in floored days has reached the
expiry: the entry is reported absent. -/
theorem get_after_set_stale (enc : Nat → String) (dec : String → Option Nat)
    (hcodec : ∀ n, dec (enc n) = some n) (store : CacheStore) (tPut tGet : Nat)
    (key : String) (p : Json)
    (hstale : ¬ (tGet - tPut) / secondsPerDay < CACHE_EXPIRY_DAYS) :
    CacheManager.get dec (CacheManager.set enc store tPut key p) tGet key =
      .ok none := by
  unfold CacheManager.get CacheManager.set
  simp [jsonLookup, hcodec, hstale]

/-- `Protocol(**asdict(p))` reconstructs `p` exactly. -/
theorem fromDict_asdict (p : Protocol) : Protocol.fromDict p.asdict = some p := by
  cases p
  rfl

/-- A list on which every element fails the predicate has no `find?` result. -/
theorem find?_eq_none_of_all_not {α : Type} (l : List α) (p : α → Bool)
    (h : l.all (fun x => !p x) = true) : l.find? p = none := by
  rw [List.find?_eq_none]
  intro x hx
  have hx2 := List.all_eq_true.mp h x hx
  simp at hx2
  simp [hx2]

/-! ## Claim theorems -/

/-- Claim C4: after `set` under the digest of a semantic key, a `get` under the same
digest within the 7-day TTL returns the stored payload unchanged, for any digest
function and any isoformat codec that round-trips. -/
theorem cache_put_get_roundtrip (digest : String → String) (enc : Nat → String)
    (dec : String → Option Nat) (hcodec : ∀ n, dec (enc n) = some n)
    (store : CacheStore) (k : String) (p : Json) (tPut tGet : Nat)
    (hle : tPut ≤ tGet)
    (hfresh : tGet - tPut < CACHE_EXPIRY_DAYS * secondsPerDay) :
    CacheManager.get dec
        (CacheManager.set enc store tPut (get_cache_key digest k) p) tGet
        (get_cache_key digest k) = .ok (some p) := by
  apply get_after_set_fresh enc dec hcodec store tPut tGet _ p
  have hfresh2 : tGet - tPut < 604800 := by
    simpa [CACHE_EXPIRY_DAYS, secondsPerDay] using hfresh
  simp only [CACHE_EXPIRY_DAYS, secondsPerDay]
  omega

/-- The unary clock encoding used to instantiate the external isoformat codec in
witnesses: it round-trips by construction. -/
def unaryEnc : Nat → String := fun n => ⟨List.replicate n 'a'⟩

/-- The matching decoder for `unaryEnc`. -/
def lenDec : String → Option Nat := fun s => some s.data.length

/-- The codec round-trip fact for `unaryEnc` / `lenDec`. -/
theorem lenDec_unaryEnc (n : Nat) : lenDec (unaryEnc n) = some n := by
  simp [unaryEnc, lenDec]

/-- Witness for C4 at a concrete key, payload and pair of times 100 seconds apart. -/
theorem cache_put_get_roundtrip_witness :
    CacheManager.get lenDec
        (CacheManager.set unaryEnc (fun _ => none) 100 (get_cache_key id "article_777") (.str "payload")) 200
        (get_cache_key id "article_777") = .ok (some (.str "payload")) :=
  cache_put_get_roundtrip id unaryEnc lenDec lenDec_unaryEnc (fun _ => none)
    "article_777" (.str "payload") 100 200 (by decide) (by decide)

/-- Claim C5: an entry written at `t` is absent at any `t + TTL + ε` with `ε > 0`, and
in general a `get` at `tGet ≥ t` returns the stored payload exactly when the elapsed
time is strictly below the 7-day TTL (`timedelta.days` floors, and `floor(age/day) < 7`
holds exactly when `age < 7 days`). -/
theorem cache_expiry (digest : String → String) (enc : Nat → String)
    (dec : String → Option Nat) (hcodec : ∀ n, dec (enc n) = some n)
    (store : CacheStore) (k : String) (p : Json) (tPut : Nat) :
    (∀ ε : Nat, 0 < ε →
      CacheManager.get dec
          (CacheManager.set enc store tPut (get_cache_key digest k) p)
          (tPut + CACHE_EXPIRY_DAYS * secondsPerDay + ε)
          (get_cache_key digest k) = .ok none) ∧
    (∀ tGet : Nat, tPut ≤ tGet →
      (CacheManager.get dec
          (CacheManager.set enc store tPut (get_cache_key digest k) p) tGet
          (get_cache_key digest k) = .ok (some p) ↔
        tGet - tPut < CACHE_EXPIRY_DAYS * secondsPerDay)) := by
  constructor
  · intro ε hε
    apply get_after_set_stale enc dec hcodec store _ _ _ p
    simp only [CACHE_EXPIRY_DAYS, secondsPerDay]
    omega
  · intro tGet hle
    constructor
    · intro hget
      by_contra hstale
      have hdays : ¬ (tGet - tPut) / secondsPerDay < CACHE_EXPIRY_DAYS := by
        simp only [CACHE_EXPIRY_DAYS, secondsPerDay] at hstale ⊢
        omega
      have habs := get_after_set_stale enc dec hcodec store tPut tGet
        (get_cache_key digest k) p hdays
      rw [habs] at hget
      simp at hget
    · intro hfresh
      apply get_after_set_fresh enc dec hcodec store _ _ _ p
      simp only [CACHE_EXPIRY_DAYS, secondsPerDay] at hfresh ⊢
      omega

/-- Witness for C5: a concrete entry written at time 0 is absent one second past the
TTL, and the freshness equivalence evaluates at a concrete pre-TTL time. -/
theorem cache_expiry_witness :
    CacheManager.get lenDec
        (CacheManager.set unaryEnc (fun _ => none) 0 (get_cache_key id "search_pcr") (.str "ids"))
        (0 + CACHE_EXPIRY_DAYS * secondsPerDay + 1)
        (get_cache_key id "search_pcr") = .ok none ∧
    (CacheManager.get lenDec
        (CacheManager.set unaryEnc (fun _ => none) 0 (get_cache_key id "search_pcr") (.str "ids")) 3600
        (get_cache_key id "search_pcr") = .ok (some (.str "ids")) ↔
      3600 - 0 < CACHE_EXPIRY_DAYS * secondsPerDay) :=
  ⟨(cache_expiry id unaryEnc lenDec lenDec_unaryEnc (fun _ => none) "search_pcr"
      (.str "ids") 0).1 1 (by decide),
   (cache_expiry id unaryEnc lenDec lenDec_unaryEnc (fun _ => none) "search_pcr"
      (.str "ids") 0).2 3600 (by decide)⟩

/-- Claim C6 (amended): a missing cache file reads as absent, but a corrupt or
unreadable entry makes `get` raise — the bytes that `json.load` rejects surface as the
JSON decode error, and a decoded entry without the expected fields surfaces as a key
error — rather than degrading to a miss. -/
theorem cache_corrupt_entry_raises (dec : String → Option Nat) (store : CacheStore)
    (now : Nat) (key : String) :
    (store (key ++ ".json") = none →
      CacheManager.get dec store now key = .ok none) ∧
    (store (key ++ ".json") = some none →
      CacheManager.get dec store now key = .error .jsonDecodeError) ∧
    (store (key ++ ".json") = some (some (.obj [])) →
      CacheManager.get dec store now key = .error .keyError) := by
  refine ⟨fun h => ?_, fun h => ?_, fun h => ?_⟩ <;>
    · unfold CacheManager.get
      rw [h]
      try rfl

/-- A concrete cache directory holding one unreadable entry. -/
def corruptStore : CacheStore :=
  fun f => if f = "deadbeef.json" then some none else none

/-- Witness for the amended C6 at concrete stores. -/
theorem cache_corrupt_entry_raises_witness :
    CacheManager.get lenDec (fun _ => none) 0 "k" = .ok none ∧
    CacheManager.get lenDec corruptStore 0 "deadbeef" = .error .jsonDecodeError :=
  ⟨(cache_corrupt_entry_raises lenDec (fun _ => none) 0 "k").1 rfl,
   (cache_corrupt_entry_raises lenDec corruptStore 0 "deadbeef").2.1 rfl⟩

/-- Claim C6 (counterexample): on a store whose entry for the key holds bytes that are
not valid JSON, `get` does not return absent — the decode error escapes, so the claim
that corruption reads as a miss is false of the code. -/
theorem cache_corrupt_counterexample :
    CacheManager.get lenDec corruptStore 0 "deadbeef" = .error .jsonDecodeError ∧
    CacheManager.get lenDec corruptStore 0 "deadbeef" ≠ .ok none := by
  refine ⟨rfl, fun h => ?_⟩
  rw [show CacheManager.get lenDec corruptStore 0 "deadbeef" =
        .error .jsonDecodeError from rfl] at h
  exact Except.noConfusion h

/-- Claim C1: when some section's title matches (the `find?` hypothesis names the first
such section in document order) the extractor returns that section's collected text,
and the stage-2 body-pattern fallback is never consulted: the result is the same
whatever function sits in the fallback position, even though the body also matches a
pattern (the `isSome` hypothesis). -/
theorem extractor_stage_ordering (root sec : Xml)
    (hfirst : (root.iterAll.filter (fun e => e.tag == "sec")).find? secTitleMatches =
      some sec)
    (hbody : (body_pattern_fallback root).isSome = true) :
    extract_methods root = some (sectionText sec) ∧
    ∀ fallback : Xml → Option String,
      (match stage1_titled_section root with
       | some methods_text => some methods_text
       | none => fallback root) = some (sectionText sec) := by
  have hs : stage1_titled_section root = some (sectionText sec) := by
    unfold stage1_titled_section
    rw [hfirst]
    rfl
  refine ⟨?_, fun fallback => ?_⟩
  · unfold extract_methods
    rw [hs]
  · rw [hs]

/-- The section of the C1 witness document: a titled "Methods" section. -/
def w1sec : Xml :=
  .elem "sec" none
    [.elem "title" (some "Methods") [] none,
     .elem "p" (some "Step one.") [] none]
    none

/-- The C1 witness document: a titled "Methods" section and a body whose text matches
the "Methods: ... Results" pattern. -/
def w1root : Xml :=
  .elem "article" none
    [w1sec,
     .elem "body" (some "Methods: do the thing Results here") [] none]
    none

/-- Witness for C1: on `w1root` both hypotheses hold concretely and the extractor
returns the titled-section text, not the body capture "do the thing". -/
theorem extractor_stage_ordering_witness :
    (w1root.iterAll.filter (fun e => e.tag == "sec")).find? secTitleMatches =
      some w1sec ∧
    (body_pattern_fallback w1root).isSome = true ∧
    extract_methods w1root = some (sectionText w1sec) ∧
    extract_methods w1root = some "Methods Step one." :=
  ⟨rfl, rfl, (extractor_stage_ordering w1root w1sec rfl rfl).1,
   (extractor_stage_ordering w1root w1sec rfl rfl).1⟩

/-- The paragraph content of the C2 fixture. -/
def c2Paragraph : String :=
  "Mix 10uL of buffer A with 5uL of buffer B, incubate at 37°C for 30 min."

/-- The C2 fixture document: an article containing
`<sec><title>Materials and Methods</title><p>...</p></sec>`. -/
def fixtureC2 : Xml :=
  .elem "article" none
    [.elem "sec" none
      [.elem "title" (some "Materials and Methods") [] none,
       .elem "p" (some c2Paragraph) [] none]
      none]
    none

/-- Claim C2 (counterexample): on the fixture the extractor returns the title text
followed by the paragraph — the stage-1 collection walks every descendant of the
section, `<title>` included — so the returned string is not the paragraph content
alone, even after discarding all whitespace. -/
theorem fixture_extraction_counterexample :
    extract_methods fixtureC2 = some ("Materials and Methods " ++ c2Paragraph) ∧
    ("Materials and Methods " ++ c2Paragraph).toList.filter (fun c => !pyWhitespace c) ≠
      c2Paragraph.toList.filter (fun c => !pyWhitespace c) := by
  exact ⟨rfl, by decide⟩

/-- Claim C2 (amended): on the fixture the extractor returns exactly
"Materials and Methods Mix 10uL of buffer A with 5uL of buffer B, incubate at 37°C for
30 min." — the paragraph content prefixed by the section title text. -/
theorem fixture_extraction_amended :
    extract_methods fixtureC2 =
      some ("Materials and Methods " ++ c2Paragraph) := rfl

/-- Claim C3: the extractor is a total function into `Option String` — "not found" is
the value `none`, produced exactly when the titled-section scan and the body-pattern
fallback both fail, and no input makes it raise. -/
theorem extractor_total_never_raises (root : Xml) :
    extract_methods root = none ↔
      stage1_titled_section root = none ∧ body_pattern_fallback root = none := by
  unfold extract_methods
  cases h : stage1_titled_section root with
  | some t => simp
  | none => simp

/-- Claim C10: the stage-1 test reads only the title element's own immediate text.  A
section whose first child is a title with any nested children at all is rejected when
the title's immediate text lacks every synonym — the nested children are universally
quantified and do not occur in the conclusion — and a document all of whose sections
are rejected falls through to the body-pattern fallback. -/
theorem stage1_reads_only_title_immediate_text
    (stext ttext ttail stail : Option String) (tchildren rest : List Xml)
    (hno : methods_titles.any
        (fun m => pyContains
          (match ttext with
           | some s => if s = "" then "" else pyLower s
           | none => "") m) = false) :
    secTitleMatches
        (.elem "sec" stext (.elem "title" ttext tchildren ttail :: rest) stail) =
      false ∧
    ∀ root : Xml,
      (root.iterAll.filter (fun e => e.tag == "sec")).all
          (fun s => !secTitleMatches s) = true →
      extract_methods root = body_pattern_fallback root := by
  constructor
  · unfold secTitleMatches Xml.findChild
    simp only [Xml.children, List.find?]
    rw [show ((Xml.elem "title" ttext tchildren ttail).tag == "title") = true from rfl]
    exact hno
  · intro root hall
    have hs : stage1_titled_section root = none := by
      unfold stage1_titled_section
      rw [find?_eq_none_of_all_not _ _ hall]
      rfl
    unfold extract_methods
    rw [hs]

/-- The section of the C10 witness document: the synonym "Methods" appears only inside
a `<bold>` child of the title, so `title.text` is `None`. -/
def w2sec : Xml :=
  .elem "sec" none
    [.elem "title" none [.elem "bold" (some "Methods") [] none] none,
     .elem "p" (some "Hidden step.") [] none]
    none

/-- The C10 witness document: the nested-title section plus a body the fallback can
capture from. -/
def w2root : Xml :=
  .elem "article" none
    [w2sec,
     .elem "body" (some "Methods: fallback text Results here") [] none]
    none

/-- Witness for C10: the nested-synonym section is not matched by stage 1, and
extraction on the document falls through to the body-pattern fallback, which captures
"fallback text" rather than the section's own paragraph. -/
theorem stage1_reads_only_title_immediate_text_witness :
    secTitleMatches w2sec = false ∧
    extract_methods w2root = body_pattern_fallback w2root ∧
    extract_methods w2root = some "fallback text" := by
  have h := stage1_reads_only_title_immediate_text none none none none
    [.elem "bold" (some "Methods") [] none]
    [.elem "p" (some "Hidden step.") [] none] (by decide)
  exact ⟨h.1, h.2 w2root (by rfl), rfl⟩

/-- A concrete article for instantiating synthesis calls. -/
def exampleArticle : Article :=
  { pmc_id := "1234567", pmid := none, title := "An article", authors := ["A B"],
    journal := "J", year := "2024", doi := none, abstract := none,
    methods_text := some "Mix.", full_text_url := "u" }

/-- Claim C7: synthesis on empty or null methods text fails with the empty-input error
(`ValueError`, the spec's `EmptyInputError`) with an empty effect trace — before any
generative-collaborator call, cache read or cache write — and with the store
untouched. -/
theorem synthesize_empty_input_fails_first (digest : String → String)
    (enc : Nat → String) (dec : String → Option Nat) (llm : Except Unit Json)
    (model : String) (store : CacheStore) (now : Nat)
    (methods_text : Option String) (article_info : Article) (style : String)
    (hmt : methods_text = none ∨ methods_text = some "") :
    generate_protocol digest enc dec llm model store now methods_text article_info
        style = ⟨.error .emptyInput, store, []⟩ := by
  rcases hmt with h | h <;> subst h <;> rfl

/-- Witness for C7 at the empty string, with the collaborator primed to answer: the
failure still happens first, with no effects. -/
theorem synthesize_empty_input_fails_first_witness :
    generate_protocol id unaryEnc lenDec (.ok (.obj [("title", .str "T")]))
        "gpt-4-turbo-preview" (fun _ => none) 0 (some "") exampleArticle "detailed" =
      ⟨.error .emptyInput, (fun _ => none), []⟩ :=
  synthesize_empty_input_fails_first id unaryEnc lenDec
    (.ok (.obj [("title", .str "T")])) "gpt-4-turbo-preview" (fun _ => none) 0
    (some "") exampleArticle "detailed" (Or.inr rfl)

/-- Claim C8 (amended): with a cold cache, `search_articles` raises the search error
exactly for collaborator failures (transport error, HTTP error status, or a non-JSON
body — all re-raised `requests.RequestException`s).  A decoded JSON response lacking
the expected `esearchresult`/`idlist` structure never raises the search error, but is
not uniformly an empty result either: when the absence is detected by the dict
membership tests — a top-level dict without the `esearchresult` key, or one whose
`esearchresult` value is a dict without the `idlist` key — the call returns the empty
list, while a non-container `esearchresult` value (`null` or a number) makes the `in`
test raise an uncaught `TypeError`, which the handler for `requests.RequestException`
does not catch.  A well-formed response returns its identifier list, the empty list
included, without error. -/
theorem search_articles_error_semantics (digest : String → String)
    (enc : Nat → String) (dec : String → Option Nat) (store : CacheStore) (now : Nat)
    (query : String) (max_results : Nat)
    (hcold : store
        (get_cache_key digest ("search_" ++ query ++ "_" ++ toString max_results) ++
          ".json") = none) :
    (search_articles digest enc dec .transportError store now query
        max_results).result = .error .searchError ∧
    (∀ ids : List Json,
      (search_articles digest enc dec
          (.ok (.obj [("esearchresult", .obj [("idlist", .arr ids)])])) store now
          query max_results).result = .ok (.arr ids)) ∧
    (∀ fields : List (String × Json),
      fields.all (fun q => !(q.1 == "esearchresult")) = true →
      (search_articles digest enc dec (.ok (.obj fields)) store now query
          max_results).result = .ok (.arr [])) ∧
    (∀ fields : List (String × Json),
      fields.all (fun q => !(q.1 == "idlist")) = true →
      (search_articles digest enc dec
          (.ok (.obj [("esearchresult", .obj fields)])) store now query
          max_results).result = .ok (.arr [])) ∧
    (search_articles digest enc dec (.ok (.obj [("esearchresult", .null)])) store
        now query max_results).result = .error .typeError ∧
    (∀ n : Int,
      (search_articles digest enc dec (.ok (.obj [("esearchresult", .num n)]))
          store now query max_results).result = .error .typeError) := by
  have hget : CacheManager.get dec store now
      (get_cache_key digest ("search_" ++ query ++ "_" ++ toString max_results)) =
      .ok none := by
    unfold CacheManager.get
    rw [hcold]
  have hall : ∀ (fields : List (String × Json)) (k : String),
      fields.all (fun q => !(q.1 == k)) = true →
      fields.any (fun p => p.1 == k) = false := by
    intro fields k hf
    rw [List.any_eq_false]
    intro x hx
    have := List.all_eq_true.mp hf x hx
    simpa using this
  refine ⟨?_, fun ids => ?_, fun fields hf => ?_, fun fields hf => ?_, ?_, fun n => ?_⟩
  · simp only [search_articles, hget]
    rfl
  · simp only [search_articles, hget]
    rfl
  · simp only [search_articles, hget, Json.truthy, pyIn, hall fields "esearchresult" hf]
    rfl
  · simp [search_articles, hget, Json.truthy, pyIn, pyIndex, jsonLookup,
      hall fields "idlist" hf]
  · simp only [search_articles, hget]
    rfl
  · simp only [search_articles, hget]
    rfl

/-- Witness for C8 (amended) on a cold cache: the transport failure raises the search
error, the well-formed empty identifier list comes back as the empty list, and the
non-container `{"esearchresult": null}` response raises the uncaught type error. -/
theorem search_articles_error_semantics_witness :
    (search_articles id unaryEnc lenDec .transportError (fun _ => none) 0 "pcr"
        5).result = .error .searchError ∧
    (search_articles id unaryEnc lenDec
        (.ok (.obj [("esearchresult", .obj [("idlist", .arr [])])])) (fun _ => none)
        0 "pcr" 5).result = .ok (.arr []) ∧
    (search_articles id unaryEnc lenDec (.ok (.obj [("esearchresult", .null)]))
        (fun _ => none) 0 "pcr" 5).result = .error .typeError :=
  ⟨(search_articles_error_semantics id unaryEnc lenDec (fun _ => none) 0 "pcr" 5
      rfl).1,
   (search_articles_error_semantics id unaryEnc lenDec (fun _ => none) 0 "pcr" 5
      rfl).2.1 [],
   (search_articles_error_semantics id unaryEnc lenDec (fun _ => none) 0 "pcr" 5
      rfl).2.2.2.2.1⟩

/-- Claim C8 (counterexample): a decoded JSON response with no `esearchresult` at all —
malformed in the claim's sense — does not raise the search error: the call returns the
empty list successfully. -/
theorem search_malformed_counterexample :
    (search_articles id unaryEnc lenDec (.ok (.obj [])) (fun _ => none) 0 "pcr"
        5).result = .ok (.arr []) ∧
    (search_articles id unaryEnc lenDec (.ok (.obj [])) (fun _ => none) 0 "pcr"
        5).result ≠ .error .searchError := by
  refine ⟨rfl, fun h => ?_⟩
  rw [show (search_articles id unaryEnc lenDec (.ok (.obj [])) (fun _ => none) 0
      "pcr" 5).result = .ok (.arr []) from rfl] at h
  exact Except.noConfusion h

/-- Claim C9: the synthesis cache key is the digest of
`"protocol_" ++ methods_text[:100] ++ "_" ++ style`, so two methods texts agreeing on
their first 100 characters yield equal keys for every digest function; consequently a
protocol synthesized and cached for the first text is returned verbatim — with a cache
read as the only effect, no collaborator call, and the store unchanged — by a
fresh-enough later call on the second text, whatever its collaborator would answer. -/
theorem synthesis_cache_key_prefix_sharing (digest : String → String)
    (enc : Nat → String) (dec : String → Option Nat)
    (hcodec : ∀ n, dec (enc n) = some n) (t1 t2 style : String)
    (hpre : pyTake t1 100 = pyTake t2 100) (h1 : ¬ t1 = "") (h2 : ¬ t2 = "")
    (pf : List (String × Json)) (llm2 : Except Unit Json) (model1 model2 : String)
    (store : CacheStore) (a1 a2 : Article) (now1 now2 : Nat)
    (hcold : store
        (get_cache_key digest ("protocol_" ++ pyTake t1 100 ++ "_" ++ style) ++
          ".json") = none)
    (hle : now1 ≤ now2)
    (hfresh : now2 - now1 < CACHE_EXPIRY_DAYS * secondsPerDay) :
    get_cache_key digest ("protocol_" ++ pyTake t1 100 ++ "_" ++ style) =
      get_cache_key digest ("protocol_" ++ pyTake t2 100 ++ "_" ++ style) ∧
    (generate_protocol digest enc dec llm2 model2
        (generate_protocol digest enc dec (.ok (.obj pf)) model1 store now1
            (some t1) a1 style).store now2 (some t2) a2 style).result =
      (generate_protocol digest enc dec (.ok (.obj pf)) model1 store now1 (some t1)
          a1 style).result ∧
    (generate_protocol digest enc dec llm2 model2
        (generate_protocol digest enc dec (.ok (.obj pf)) model1 store now1
            (some t1) a1 style).store now2 (some t2) a2 style).effects =
      [.cacheRead] ∧
    (generate_protocol digest enc dec llm2 model2
        (generate_protocol digest enc dec (.ok (.obj pf)) model1 store now1
            (some t1) a1 style).store now2 (some t2) a2 style).store =
      (generate_protocol digest enc dec (.ok (.obj pf)) model1 store now1 (some t1)
          a1 style).store := by
  have hkey : get_cache_key digest ("protocol_" ++ pyTake t1 100 ++ "_" ++ style) =
      get_cache_key digest ("protocol_" ++ pyTake t2 100 ++ "_" ++ style) := by
    rw [hpre]
  have hget1 : CacheManager.get dec store now1
      (get_cache_key digest ("protocol_" ++ pyTake t1 100 ++ "_" ++ style)) =
      .ok none := by
    unfold CacheManager.get
    rw [hcold]
  have hr1 : generate_protocol digest enc dec (.ok (.obj pf)) model1 store now1
      (some t1) a1 style =
      ⟨.ok
        { title := (jsonLookup pf "title").getD (.str "Protocolo sin título")
          original_article := encodeArticle a1
          reagents := (jsonLookup pf "reagents").getD (.arr [])
          materials := (jsonLookup pf "materials").getD (.arr [])
          preparation := (jsonLookup pf "preparation").getD (.arr [])
          procedure := (jsonLookup pf "procedure").getD (.arr [])
          conditions := (jsonLookup pf "conditions").getD (.obj [])
          critical_notes := (jsonLookup pf "critical_notes").getD (.arr [])
          safety_warnings := (jsonLookup pf "safety_warnings").getD (.arr [])
          generated_date := enc now1
          llm_model := model1 },
       CacheManager.set enc store now1
         (get_cache_key digest ("protocol_" ++ pyTake t1 100 ++ "_" ++ style))
         (Protocol.asdict
           { title := (jsonLookup pf "title").getD (.str "Protocolo sin título")
             original_article := encodeArticle a1
             reagents := (jsonLookup pf "reagents").getD (.arr [])
             materials := (jsonLookup pf "materials").getD (.arr [])
             preparation := (jsonLookup pf "preparation").getD (.arr [])
             procedure := (jsonLookup pf "procedure").getD (.arr [])
             conditions := (jsonLookup pf "conditions").getD (.obj [])
             critical_notes := (jsonLookup pf "critical_notes").getD (.arr [])
             safety_warnings := (jsonLookup pf "safety_warnings").getD (.arr [])
             generated_date := enc now1
             llm_model := model1 }),
       [.cacheRead, .llmCall, .cacheWrite]⟩ := by
    simp only [generate_protocol, Option.getD_some]
    rw [if_neg h1]
    rw [hget1]
    rfl
  refine ⟨hkey, ?_⟩
  rw [hr1]
  simp only [generate_protocol, Option.getD_some]
  rw [if_neg h2]
  rw [← hkey]
  rw [get_after_set_fresh enc dec hcodec store now1 now2 _ _
    (by simp only [CACHE_EXPIRY_DAYS, secondsPerDay] at hfresh ⊢; omega)]
  exact ⟨rfl, rfl, rfl⟩

/-- A 101-character methods text. -/
def c9text1 : String := ⟨List.replicate 100 'a' ++ ['x']⟩

/-- A methods text agreeing with `c9text1` on its first 100 characters but diverging at
character 101. -/
def c9text2 : String := ⟨List.replicate 100 'a' ++ ['y']⟩

/-- Witness for C9: two concrete texts that diverge after their shared 100-character
prefix derive the same key, and the protocol synthesized for the first is returned for
the second one hour later — with only a cache read, although the second call's
collaborator is primed to fail. -/
theorem synthesis_cache_key_prefix_sharing_witness :
    get_cache_key id ("protocol_" ++ pyTake c9text1 100 ++ "_" ++ "detailed") =
      get_cache_key id ("protocol_" ++ pyTake c9text2 100 ++ "_" ++ "detailed") ∧
    (generate_protocol id unaryEnc lenDec (.error ()) "model2"
        (generate_protocol id unaryEnc lenDec (.ok (.obj [("title", .str "T")]))
            "model1" (fun _ => none) 0 (some c9text1) exampleArticle
            "detailed").store 3600 (some c9text2) exampleArticle
        "detailed").result =
      (generate_protocol id unaryEnc lenDec (.ok (.obj [("title", .str "T")]))
          "model1" (fun _ => none) 0 (some c9text1) exampleArticle
          "detailed").result ∧
    (generate_protocol id unaryEnc lenDec (.error ()) "model2"
        (generate_protocol id unaryEnc lenDec (.ok (.obj [("title", .str "T")]))
            "model1" (fun _ => none) 0 (some c9text1) exampleArticle
            "detailed").store 3600 (some c9text2) exampleArticle
        "detailed").effects = [.cacheRead] := by
  have h := synthesis_cache_key_prefix_sharing id unaryEnc lenDec lenDec_unaryEnc
    c9text1 c9text2 "detailed" (by decide) (by decide) (by decide)
    [("title", .str "T")] (.error ()) "model1" "model2" (fun _ => none)
    exampleArticle exampleArticle 0 3600 rfl (by decide) (by decide)
  exact ⟨h.1, h.2.1, h.2.2.1⟩
